import Mathlib

/-!
Verification of the Country Threat Assessment Tool core (src/main.py).

Shallow embedding conventions:
* Python `int` indicator values are embedded as `ℤ`.
* Python `float` arithmetic is embedded as exact rational arithmetic over `ℚ`;
  decimal literals such as `0.25` and `2.1` denote the exact rationals they
  write.
* Python strings are Lean `String`s.
* The SQLite table `countries` is embedded as a `List Row`; `CURRENT_TIMESTAMP`
  is an explicit `ℕ` parameter threaded through the operations.
-/

/-- Dataclass `PoliticalStabilityMetrics` (src/main.py lines 17-22). -/
structure PoliticalStabilityMetrics where
  government_legitimacy : ℤ
  political_violence : ℤ
  institutional_strength : ℤ
  leadership_stability : ℤ
deriving DecidableEq

/-- Dataclass `SecurityEnvironmentMetrics` (src/main.py lines 24-29). -/
structure SecurityEnvironmentMetrics where
  internal_conflict : ℤ
  regional_security : ℤ
  law_enforcement : ℤ
  military_factors : ℤ
deriving DecidableEq

/-- Dataclass `EconomicStabilityMetrics` (src/main.py lines 31-36). -/
structure EconomicStabilityMetrics where
  economic_performance : ℤ
  fiscal_health : ℤ
  trade_dependencies : ℤ
  infrastructure_resilience : ℤ
deriving DecidableEq

/-- Dataclass `SocialIndicatorsMetrics` (src/main.py lines 38-43). -/
structure SocialIndicatorsMetrics where
  social_cohesion : ℤ
  human_development : ℤ
  demographic_pressures : ℤ
  information_environment : ℤ
deriving DecidableEq

/-- Dataclass `IllicitMarketsMetrics` (src/main.py lines 45-52). -/
structure IllicitMarketsMetrics where
  drug_trade : ℤ
  human_trafficking : ℤ
  arms_trafficking : ℤ
  financial_crimes : ℤ
  cybercrime_operations : ℤ
  state_response_capacity : ℤ
deriving DecidableEq

/-- Dataclass `CountryData` (src/main.py lines 54-64): name, the five metric
groups, and the three free-text note fields (defaulting to `""` in Python). -/
structure CountryData where
  name : String
  political_stability : PoliticalStabilityMetrics
  security_environment : SecurityEnvironmentMetrics
  economic_stability : EconomicStabilityMetrics
  social_indicators : SocialIndicatorsMetrics
  illicit_markets : IllicitMarketsMetrics
  key_risk_factors : String := ""
  trend_analysis : String := ""
  recommendations : String := ""
deriving DecidableEq

/-- The field values of a `PoliticalStabilityMetrics` instance, in dataclass
declaration order — the order `__dataclass_fields__.values()` iterates in
(src/main.py line 77). -/
def PoliticalStabilityMetrics.fieldValues (m : PoliticalStabilityMetrics) : List ℤ :=
  [m.government_legitimacy, m.political_violence, m.institutional_strength,
   m.leadership_stability]

/-- The field values of a `SecurityEnvironmentMetrics` instance, in dataclass
declaration order. -/
def SecurityEnvironmentMetrics.fieldValues (m : SecurityEnvironmentMetrics) : List ℤ :=
  [m.internal_conflict, m.regional_security, m.law_enforcement, m.military_factors]

/-- The field values of an `EconomicStabilityMetrics` instance, in dataclass
declaration order. -/
def EconomicStabilityMetrics.fieldValues (m : EconomicStabilityMetrics) : List ℤ :=
  [m.economic_performance, m.fiscal_health, m.trade_dependencies,
   m.infrastructure_resilience]

/-- The field values of a `SocialIndicatorsMetrics` instance, in dataclass
declaration order. -/
def SocialIndicatorsMetrics.fieldValues (m : SocialIndicatorsMetrics) : List ℤ :=
  [m.social_cohesion, m.human_development, m.demographic_pressures,
   m.information_environment]

/-- The field values of an `IllicitMarketsMetrics` instance, in dataclass
declaration order. -/
def IllicitMarketsMetrics.fieldValues (m : IllicitMarketsMetrics) : List ℤ :=
  [m.drug_trade, m.human_trafficking, m.arms_trafficking, m.financial_crimes,
   m.cybercrime_operations, m.state_response_capacity]

/-- `CountryData.calculate_category_score` (src/main.py lines 74-78): a falsy
(`None`/empty) metrics argument yields `0.0`; otherwise the sum of the field
values divided by their count. The metrics object is embedded as its list of
field values, so the falsy guard is the empty-list case. -/
def calculate_category_score (scores : List ℤ) : ℚ :=
  if scores = [] then 0
  else (scores.sum : ℚ) / (scores.length : ℚ)

/-- The class attribute `CountryData.WEIGHTS` (src/main.py lines 66-72): a
dict mapping the five category keys to their float weights, embedded as an
association list of exact rationals. -/
def WEIGHTS : List (String × ℚ) :=
  [("political_stability", 0.25),
   ("security_environment", 0.20),
   ("economic_stability", 0.20),
   ("social_indicators", 0.15),
   ("illicit_markets", 0.20)]

/-- Dict lookup `d[k]` on a string-keyed association list; `0` stands for the
(unreachable, for the five literal keys used) `KeyError` case. -/
def dictWeight (k : String) : ℚ :=
  (((WEIGHTS.filter (fun p => p.1 == k)).map (fun p => p.2)).headD 0)

/-- `CountryData.calculate_threat_score` (src/main.py lines 80-92): each
category mean times its weight, collected into `weighted_scores` and summed. -/
def calculate_threat_score (c : CountryData) : ℚ :=
  List.sum
    [calculate_category_score c.political_stability.fieldValues *
       dictWeight "political_stability",
     calculate_category_score c.security_environment.fieldValues *
       dictWeight "security_environment",
     calculate_category_score c.economic_stability.fieldValues *
       dictWeight "economic_stability",
     calculate_category_score c.social_indicators.fieldValues *
       dictWeight "social_indicators",
     calculate_category_score c.illicit_markets.fieldValues *
       dictWeight "illicit_markets"]

/-- The banding chain of `CountryData.get_threat_level` (src/main.py lines
96-107), as a function of the computed score: chained comparisons
`1.0 <= score <= 2.0` are conjunctions. -/
def threat_level_of_score (score : ℚ) : String :=
  if 1.0 ≤ score ∧ score ≤ 2.0 then "LOW"
  else if 2.1 ≤ score ∧ score ≤ 4.0 then "MODERATE"
  else if 4.1 ≤ score ∧ score ≤ 6.0 then "ELEVATED"
  else if 6.1 ≤ score ∧ score ≤ 8.0 then "HIGH"
  else if 8.1 ≤ score ∧ score ≤ 10.0 then "EXTREME"
  else "UNDEFINED"

/-- `CountryData.get_threat_level` (src/main.py lines 94-107). -/
def CountryData.get_threat_level (c : CountryData) : String :=
  threat_level_of_score (calculate_threat_score c)

/-- The `descriptions` dict of `get_threat_description` (src/main.py lines
111-118), as a partial string map: `none` is a key miss. -/
def descriptions (level : String) : Option String :=
  if level == "LOW" then some "Stable with minimal risks"
  else if level == "MODERATE" then some "Some concerns but manageable"
  else if level == "ELEVATED" then some "Significant risks requiring monitoring"
  else if level == "HIGH" then some "Serious threats with potential for instability"
  else if level == "EXTREME" then some "Critical threats with high probability of crisis"
  else if level == "UNDEFINED" then some "Score out of range."
  else none

/-- `CountryData.get_threat_description` (src/main.py lines 109-119), as a
function of the score: `descriptions.get(level, "N/A")`. -/
def get_threat_description_of_score (score : ℚ) : String :=
  (descriptions (threat_level_of_score score)).getD "N/A"

/-- The `colors_map` dict of `get_threat_color` (src/main.py lines 123-130),
as a partial string map: `none` is a key miss. -/
def colors_map (level : String) : Option String :=
  if level == "LOW" then some "#28a745"
  else if level == "MODERATE" then some "#ffc107"
  else if level == "ELEVATED" then some "#17a2b8"
  else if level == "HIGH" then some "#fd7e14"
  else if level == "EXTREME" then some "#dc3545"
  else if level == "UNDEFINED" then some "#6c757d"
  else none

/-- `CountryData.get_threat_color` (src/main.py lines 121-131), as a function
of the score: `colors_map.get(level, "#6c757d")`. -/
def get_threat_color_of_score (score : ℚ) : String :=
  (colors_map (threat_level_of_score score)).getD "#6c757d"

/-- One row of the SQLite table `countries` (schema in
`DatabaseHandler.init_database`, src/main.py lines 151-197): the `name` key,
the 22 indicator columns, the three nullable TEXT note columns, and the two
timestamp columns. The AUTOINCREMENT `id` column plays no role in any
operation's observable behavior and is omitted. -/
structure Row where
  name : String
  ps_government_legitimacy : ℤ
  ps_political_violence : ℤ
  ps_institutional_strength : ℤ
  ps_leadership_stability : ℤ
  se_internal_conflict : ℤ
  se_regional_security : ℤ
  se_law_enforcement : ℤ
  se_military_factors : ℤ
  es_economic_performance : ℤ
  es_fiscal_health : ℤ
  es_trade_dependencies : ℤ
  es_infrastructure_resilience : ℤ
  si_social_cohesion : ℤ
  si_human_development : ℤ
  si_demographic_pressures : ℤ
  si_information_environment : ℤ
  im_drug_trade : ℤ
  im_human_trafficking : ℤ
  im_arms_trafficking : ℤ
  im_financial_crimes : ℤ
  im_cybercrime_operations : ℤ
  im_state_response_capacity : ℤ
  key_risk_factors : Option String
  trend_analysis : Option String
  recommendations : Option String
  created_at : ℕ
  updated_at : ℕ
deriving DecidableEq

/-- The row that `DatabaseHandler.save_country`'s `INSERT OR REPLACE`
statement (src/main.py lines 207-246) writes for `country` at time `t`:
every indicator and note value is taken from `country`, `updated_at` is the
explicit `CURRENT_TIMESTAMP`, and `created_at` — absent from the column
list — takes its `DEFAULT CURRENT_TIMESTAMP` at this insert. -/
def rowOfCountry (c : CountryData) (t : ℕ) : Row :=
  { name := c.name
    ps_government_legitimacy := c.political_stability.government_legitimacy
    ps_political_violence := c.political_stability.political_violence
    ps_institutional_strength := c.political_stability.institutional_strength
    ps_leadership_stability := c.political_stability.leadership_stability
    se_internal_conflict := c.security_environment.internal_conflict
    se_regional_security := c.security_environment.regional_security
    se_law_enforcement := c.security_environment.law_enforcement
    se_military_factors := c.security_environment.military_factors
    es_economic_performance := c.economic_stability.economic_performance
    es_fiscal_health := c.economic_stability.fiscal_health
    es_trade_dependencies := c.economic_stability.trade_dependencies
    es_infrastructure_resilience := c.economic_stability.infrastructure_resilience
    si_social_cohesion := c.social_indicators.social_cohesion
    si_human_development := c.social_indicators.human_development
    si_demographic_pressures := c.social_indicators.demographic_pressures
    si_information_environment := c.social_indicators.information_environment
    im_drug_trade := c.illicit_markets.drug_trade
    im_human_trafficking := c.illicit_markets.human_trafficking
    im_arms_trafficking := c.illicit_markets.arms_trafficking
    im_financial_crimes := c.illicit_markets.financial_crimes
    im_cybercrime_operations := c.illicit_markets.cybercrime_operations
    im_state_response_capacity := c.illicit_markets.state_response_capacity
    key_risk_factors := some c.key_risk_factors
    trend_analysis := some c.trend_analysis
    recommendations := some c.recommendations
    created_at := t
    updated_at := t }

/-- `DatabaseHandler.save_country` (src/main.py lines 202-249): `INSERT OR
REPLACE` keyed by the `UNIQUE` `name` column first deletes every conflicting
row (same name) and then inserts the fresh row. -/
def save_country (store : List Row) (c : CountryData) (t : ℕ) : List Row :=
  store.filter (fun r => !(r.name == c.name)) ++ [rowOfCountry c t]

/-- Python's `x or ""` applied to a nullable TEXT column value (src/main.py
lines 295-297): `None` (and the falsy `""`) give `""`; any other string is
returned unchanged. -/
def pyOrEmpty (o : Option String) : String :=
  match o with
  | none => ""
  | some s => if s == "" then "" else s

/-- The `CountryData` that `DatabaseHandler.load_all_countries` reconstructs
from one row (src/main.py lines 261-298). -/
def countryOfRow (r : Row) : CountryData :=
  { name := r.name
    political_stability :=
      { government_legitimacy := r.ps_government_legitimacy
        political_violence := r.ps_political_violence
        institutional_strength := r.ps_institutional_strength
        leadership_stability := r.ps_leadership_stability }
    security_environment :=
      { internal_conflict := r.se_internal_conflict
        regional_security := r.se_regional_security
        law_enforcement := r.se_law_enforcement
        military_factors := r.se_military_factors }
    economic_stability :=
      { economic_performance := r.es_economic_performance
        fiscal_health := r.es_fiscal_health
        trade_dependencies := r.es_trade_dependencies
        infrastructure_resilience := r.es_infrastructure_resilience }
    social_indicators :=
      { social_cohesion := r.si_social_cohesion
        human_development := r.si_human_development
        demographic_pressures := r.si_demographic_pressures
        information_environment := r.si_information_environment }
    illicit_markets :=
      { drug_trade := r.im_drug_trade
        human_trafficking := r.im_human_trafficking
        arms_trafficking := r.im_arms_trafficking
        financial_crimes := r.im_financial_crimes
        cybercrime_operations := r.im_cybercrime_operations
        state_response_capacity := r.im_state_response_capacity }
    key_risk_factors := pyOrEmpty r.key_risk_factors
    trend_analysis := pyOrEmpty r.trend_analysis
    recommendations := pyOrEmpty r.recommendations }

/-- `DatabaseHandler.load_all_countries` (src/main.py lines 251-302): every
row reconstructed, keyed by its `name` column, in table order. -/
def load_all_countries (store : List Row) : List (String × CountryData) :=
  store.map (fun r => (r.name, countryOfRow r))

/-- Indexing the Python dict built by `countries[row[1]] = country`: the last
assignment to a key wins; `none` is a missing key. -/
def dictGet (d : List (String × CountryData)) (n : String) : Option CountryData :=
  ((d.filter (fun p => p.1 == n)).map (fun p => p.2)).getLast?

/-- `DatabaseHandler.delete_country` (src/main.py lines 304-310):
`DELETE FROM countries WHERE name = ?` keeps exactly the rows whose name
differs; it raises nothing whether or not the name is present. -/
def delete_country (store : List Row) (n : String) : List Row :=
  store.filter (fun r => !(r.name == n))

/-- Python `str.strip()` with no argument (src/main.py line 696): remove
leading and trailing whitespace characters. -/
def pyStrip (s : String) : String :=
  String.mk
    (((s.data.dropWhile (fun c => c.isWhitespace)).reverse.dropWhile
        (fun c => c.isWhitespace)).reverse)

/-- Python `str.isalnum()`: true iff the string is non-empty and every
character is alphanumeric. (The claims only exercise ASCII names, for which
`Char.isAlphanum` agrees with Python's classification.) -/
def pyIsAlnum (s : String) : Bool :=
  !(s.data == []) && s.data.all (fun c => c.isAlphanum)

/-- `name.replace(' ', '').replace('-', '')` (src/main.py line 701). -/
def stripSpacesHyphens (s : String) : String :=
  String.mk (s.data.filter (fun c => !(c == ' ') && !(c == '-')))

/-- `CountryRiskApp.add_country` (src/main.py lines 695-764), restricted to
its persistence-relevant behavior: strip the raw name; if the stripped name
is empty, or the name with spaces and hyphens removed fails `isalnum()`,
show an error and return without touching the store (`none`); otherwise
construct the record with that name and save it (`some` of the new store).
`c` carries the indicator and note values read from the form; no range check
is performed on them. -/
def add_country (store : List Row) (raw_name : String) (c : CountryData)
    (t : ℕ) : Option (List Row) :=
  let name := pyStrip raw_name
  if name == "" then none
  else if !(pyIsAlnum (stripSpacesHyphens name)) then none
  else some (save_country store { c with name := name } t)

/-- The 22 indicator values of a record, category by category and in field
order: the inputs the §3 invariant constrains to [1, 10]. -/
def allIndicators (c : CountryData) : List ℤ :=
  c.political_stability.fieldValues ++ c.security_environment.fieldValues ++
    c.economic_stability.fieldValues ++ c.social_indicators.fieldValues ++
    c.illicit_markets.fieldValues

/-- A concrete valid record used to instantiate hypotheses at a witness. -/
def sampleCountry : CountryData :=
  { name := "Brazil"
    political_stability := ⟨3, 4, 5, 6⟩
    security_environment := ⟨5, 5, 5, 5⟩
    economic_stability := ⟨2, 7, 8, 4⟩
    social_indicators := ⟨6, 6, 5, 5⟩
    illicit_markets := ⟨9, 8, 7, 6, 5, 4⟩
    key_risk_factors := "cartel violence"
    trend_analysis := ""
    recommendations := "monitor closely" }

/-- A record with the same name as `sampleCountry` but different indicator
and note values. -/
def sampleCountry' : CountryData :=
  { sampleCountry with
    security_environment := ⟨1, 2, 3, 4⟩
    illicit_markets := ⟨1, 1, 2, 2, 3, 3⟩
    trend_analysis := "worsening" }

/-- A record carrying indicator values 0 and 11, both outside [1, 10]. -/
def outOfRangeCountry : CountryData :=
  { name := "France"
    political_stability := ⟨0, 5, 5, 5⟩
    security_environment := ⟨5, 5, 5, 5⟩
    economic_stability := ⟨5, 5, 5, 5⟩
    social_indicators := ⟨5, 5, 5, 5⟩
    illicit_markets := ⟨11, 5, 5, 5, 5, 5⟩ }

-- Shared helper lemmas ------------------------------------------------------

theorem pyOrEmpty_some (s : String) : pyOrEmpty (some s) = s := by
  unfold pyOrEmpty
  by_cases h : s = "" <;> simp [h]

theorem countryOfRow_rowOfCountry (c : CountryData) (t : ℕ) :
    countryOfRow (rowOfCountry c t) = c := by
  cases c
  simp [countryOfRow, rowOfCountry, pyOrEmpty_some]

theorem rowOfCountry_name (c : CountryData) (t : ℕ) :
    (rowOfCountry c t).name = c.name := rfl

theorem save_country_filter_self (store : List Row) (c : CountryData) (t : ℕ) :
    (save_country store c t).filter (fun r => r.name == c.name) =
      [rowOfCountry c t] := by
  simp [save_country, List.filter_append, List.filter_filter, rowOfCountry_name]

theorem dictGet_load_save (store : List Row) (c : CountryData) (t : ℕ) :
    dictGet (load_all_countries (save_country store c t)) c.name = some c := by
  unfold dictGet load_all_countries save_country
  simp [List.filter_map, List.filter_filter, Function.comp,
    rowOfCountry_name, countryOfRow_rowOfCountry]

-- Claim theorems ------------------------------------------------------------

/-- C7: the five weights of the program's weight table are exactly
0.25, 0.20, 0.20, 0.15, 0.20 and their sum equals 1.0 exactly (in the exact
rational embedding of the float literals). -/
theorem weights_sum_to_one :
    (WEIGHTS.map (fun p => p.2)).sum = 1.0 ∧
      WEIGHTS.map (fun p => p.2) = [0.25, 0.20, 0.20, 0.15, 0.20] := by
  constructor <;> norm_num [WEIGHTS]

/-- C8: for a non-empty category, `calculate_category_score` is the
unweighted arithmetic mean of the indicator values; the empty (falsy) case
yields 0.0; and a category whose indicators all equal `v` scores exactly `v`
(hence all-7s score 7.0, all-1s score 1.0, all-10s score 10.0). -/
theorem category_score_is_mean (l : List ℤ) (h : l ≠ []) (n : ℕ) (v : ℤ) :
    calculate_category_score l = (l.sum : ℚ) / (l.length : ℚ) ∧
      calculate_category_score [] = 0 ∧
      calculate_category_score (List.replicate (n + 1) v) = (v : ℚ) := by
  refine ⟨by simp [calculate_category_score, h], rfl, ?_⟩
  have hne : List.replicate (n + 1) v ≠ [] := by simp
  simp only [calculate_category_score, if_neg hne, List.sum_replicate,
    List.length_replicate, nsmul_eq_mul]
  have hnz : ((n : ℚ) + 1) ≠ 0 := by positivity
  push_cast
  field_simp

/-- Witness for C8 at the concrete all-7s category of four indicators. -/
theorem category_score_is_mean_witness :
    ([(7 : ℤ), 7, 7, 7] ≠ []) ∧
      (calculate_category_score [(7 : ℤ), 7, 7, 7] =
          (([(7 : ℤ), 7, 7, 7].sum : ℚ) / (([(7 : ℤ), 7, 7, 7].length : ℚ)) : ℚ) ∧
        calculate_category_score [] = 0 ∧
        calculate_category_score (List.replicate (3 + 1) (7 : ℤ)) = ((7 : ℤ) : ℚ)) :=
  ⟨by decide, category_score_is_mean [7, 7, 7, 7] (by decide) 3 7⟩

/-- C6: deleting a name not present in the store leaves the store unchanged
(and, the operation being a total function, raises nothing); deleting twice
with the same name equals deleting once. -/
theorem delete_absent_noop_and_idempotent (store : List Row) (n : String)
    (h : ∀ r ∈ store, r.name ≠ n) :
    delete_country store n = store ∧
      delete_country (delete_country store n) n = delete_country store n := by
  constructor
  · refine List.filter_eq_self.mpr ?_
    intro r hr
    simp [h r hr]
  · simp [delete_country, List.filter_filter]

/-- Witness for C6: deleting the absent name "Atlantis" from a one-row store
is a no-op and idempotent. -/
theorem delete_absent_noop_and_idempotent_witness :
    (∀ r ∈ [rowOfCountry sampleCountry 0], r.name ≠ "Atlantis") ∧
      (delete_country [rowOfCountry sampleCountry 0] "Atlantis" =
          [rowOfCountry sampleCountry 0] ∧
        delete_country (delete_country [rowOfCountry sampleCountry 0] "Atlantis")
            "Atlantis" =
          delete_country [rowOfCountry sampleCountry 0] "Atlantis") :=
  ⟨by decide, delete_absent_noop_and_idempotent [rowOfCountry sampleCountry 0]
    "Atlantis" (by decide)⟩

/-- C4: upserting any record and reloading yields, under the record's name,
a record equal to the original in every field — name, all 22 indicators and
the three note fields; in particular a note field stored as `""` (as in
`sampleCountry.trend_analysis`) reloads as `""`, never as a missing value,
because reconstruction applies `row or ""` to the stored `some ""`. -/
theorem upsert_then_load_round_trip (store : List Row) (c : CountryData)
    (t : ℕ) :
    dictGet (load_all_countries (save_country store c t)) c.name = some c :=
  dictGet_load_save store c t

/-- C5: upserting A then A' under the same name leaves, for that name,
exactly one row holding A' entire — no merge of A's values — and reloading
yields only A' under that name. -/
theorem upsert_overwrite (store : List Row) (A A' : CountryData) (t t' : ℕ)
    (_h : A.name = A'.name) :
    (save_country (save_country store A t) A' t').filter
        (fun r => r.name == A'.name) = [rowOfCountry A' t'] ∧
      dictGet (load_all_countries (save_country (save_country store A t) A' t'))
        A'.name = some A' :=
  ⟨save_country_filter_self _ A' t', dictGet_load_save _ A' t'⟩

/-- Witness for C5 at the concrete same-name pair `sampleCountry`,
`sampleCountry'`. -/
theorem upsert_overwrite_witness :
    sampleCountry.name = sampleCountry'.name ∧
      ((save_country (save_country [] sampleCountry 1) sampleCountry' 2).filter
          (fun r => r.name == sampleCountry'.name) = [rowOfCountry sampleCountry' 2] ∧
        dictGet
          (load_all_countries
            (save_country (save_country [] sampleCountry 1) sampleCountry' 2))
          sampleCountry'.name = some sampleCountry') :=
  ⟨by decide, upsert_overwrite [] sampleCountry sampleCountry' 1 2 (by decide)⟩

/-- C9 as stated is false: `INSERT OR REPLACE` deletes the conflicting row
and inserts a fresh one, so `created_at` — absent from the column list —
takes its default at the new insert. Upserting `sampleCountry` at time 5
gives `created_at = 5`; re-upserting the same name at time 9 leaves
`created_at = 9`, not 5. -/
theorem created_at_reset_counterexample :
    (save_country [] sampleCountry 5).map (fun r => r.created_at) = [5] ∧
      (save_country (save_country [] sampleCountry 5) sampleCountry 9).map
          (fun r => r.created_at) = [9] ∧
      (9 : ℕ) ≠ 5 := by
  decide

/-- C9 amended: every upsert — first or subsequent — refreshes `updatedAt`
and also resets `createdAt` to the upsert's timestamp, because
`INSERT OR REPLACE` re-inserts the row and re-applies the `createdAt`
default; after `save_country` at time `t` the unique row under the record's
name carries `created_at = t` and `updated_at = t`. -/
theorem upsert_refreshes_both_timestamps (store : List Row) (c : CountryData)
    (t : ℕ) :
    (save_country store c t).filter (fun r => r.name == c.name) =
        [rowOfCountry c t] ∧
      (rowOfCountry c t).created_at = t ∧ (rowOfCountry c t).updated_at = t :=
  ⟨save_country_filter_self store c t, rfl, rfl⟩

/-- Each element of an integer list being in [1, 10] bounds the sum between
the length and ten times the length. -/
theorem sum_bounds_int (l : List ℤ) :
    (∀ v ∈ l, 1 ≤ v ∧ v ≤ 10) →
      (l.length : ℤ) ≤ l.sum ∧ l.sum ≤ 10 * l.length := by
  induction l with
  | nil => simp
  | cons x xs ih =>
    intro hb
    have hx := hb x (by simp)
    obtain ⟨ih1, ih2⟩ := ih (fun v hv => hb v (by simp [hv]))
    simp only [List.sum_cons, List.length_cons]
    push_cast
    constructor <;> linarith [hx.1, hx.2]

/-- A non-empty category whose indicators all lie in [1, 10] has its mean in
[1, 10]. -/
theorem category_score_bounds (l : List ℤ) (hne : l ≠ [])
    (hb : ∀ v ∈ l, 1 ≤ v ∧ v ≤ 10) :
    1 ≤ calculate_category_score l ∧ calculate_category_score l ≤ 10 := by
  obtain ⟨h1, h2⟩ := sum_bounds_int l hb
  have hlen : 0 < l.length := List.length_pos.mpr hne
  have hlenQ : (0 : ℚ) < (l.length : ℚ) := by exact_mod_cast hlen
  unfold calculate_category_score
  rw [if_neg hne]
  constructor
  · rw [le_div_iff₀ hlenQ]
    have hc : ((l.length : ℤ) : ℚ) ≤ ((l.sum : ℤ) : ℚ) := by exact_mod_cast h1
    push_cast at hc ⊢
    linarith
  · rw [div_le_iff₀ hlenQ]
    have hc : ((l.sum : ℤ) : ℚ) ≤ ((10 * l.length : ℤ) : ℚ) := by exact_mod_cast h2
    push_cast at hc ⊢
    linarith

/-- C2: for every valid record (all 22 indicators in [1, 10]), the weighted
threat score lies in [1.0, 10.0]. -/
theorem threat_score_in_range (c : CountryData)
    (h : ∀ v ∈ allIndicators c, 1 ≤ v ∧ v ≤ 10) :
    1.0 ≤ calculate_threat_score c ∧ calculate_threat_score c ≤ 10.0 := by
  have hps := category_score_bounds c.political_stability.fieldValues
    (by simp [PoliticalStabilityMetrics.fieldValues])
    (fun v hv => h v (by simp only [allIndicators, List.mem_append]; tauto))
  have hse := category_score_bounds c.security_environment.fieldValues
    (by simp [SecurityEnvironmentMetrics.fieldValues])
    (fun v hv => h v (by simp only [allIndicators, List.mem_append]; tauto))
  have hes := category_score_bounds c.economic_stability.fieldValues
    (by simp [EconomicStabilityMetrics.fieldValues])
    (fun v hv => h v (by simp only [allIndicators, List.mem_append]; tauto))
  have hsi := category_score_bounds c.social_indicators.fieldValues
    (by simp [SocialIndicatorsMetrics.fieldValues])
    (fun v hv => h v (by simp only [allIndicators, List.mem_append]; tauto))
  have him := category_score_bounds c.illicit_markets.fieldValues
    (by simp [IllicitMarketsMetrics.fieldValues])
    (fun v hv => h v (by simp only [allIndicators, List.mem_append]; tauto))
  have e1 : dictWeight "political_stability" = 0.25 := by
    simp only [dictWeight, WEIGHTS, List.filter, String.reduceBEq, String.reduceEq]
    norm_num
  have e2 : dictWeight "security_environment" = 0.20 := by
    simp only [dictWeight, WEIGHTS, List.filter, String.reduceBEq, String.reduceEq]
    norm_num
  have e3 : dictWeight "economic_stability" = 0.20 := by
    simp only [dictWeight, WEIGHTS, List.filter, String.reduceBEq, String.reduceEq]
    norm_num
  have e4 : dictWeight "social_indicators" = 0.15 := by
    simp only [dictWeight, WEIGHTS, List.filter, String.reduceBEq, String.reduceEq]
    norm_num
  have e5 : dictWeight "illicit_markets" = 0.20 := by
    simp only [dictWeight, WEIGHTS, List.filter, String.reduceBEq, String.reduceEq]
    norm_num
  unfold calculate_threat_score
  rw [e1, e2, e3, e4, e5]
  simp only [List.sum_cons, List.sum_nil, add_zero]
  norm_num
  constructor <;>
    nlinarith [hps.1, hps.2, hse.1, hse.2, hes.1, hes.2, hsi.1, hsi.2,
      him.1, him.2]

/-- Witness for C2 at the concrete valid record `sampleCountry`. -/
theorem threat_score_in_range_witness :
    (∀ v ∈ allIndicators sampleCountry, 1 ≤ v ∧ v ≤ 10) ∧
      (1.0 ≤ calculate_threat_score sampleCountry ∧
        calculate_threat_score sampleCountry ≤ 10.0) :=
  ⟨by decide, threat_score_in_range sampleCountry (by decide)⟩

/-- C1: the banding function returns each of the five levels exactly on its
closed interval, and returns "UNDEFINED" exactly on every other score —
including the gap score 2.05, the below-range 0.5 and the above-range 10.5,
never an adjacent band. -/
theorem threat_level_band_structure (s : ℚ) :
    (threat_level_of_score s = "LOW" ↔ 1.0 ≤ s ∧ s ≤ 2.0) ∧
      (threat_level_of_score s = "MODERATE" ↔ 2.1 ≤ s ∧ s ≤ 4.0) ∧
      (threat_level_of_score s = "ELEVATED" ↔ 4.1 ≤ s ∧ s ≤ 6.0) ∧
      (threat_level_of_score s = "HIGH" ↔ 6.1 ≤ s ∧ s ≤ 8.0) ∧
      (threat_level_of_score s = "EXTREME" ↔ 8.1 ≤ s ∧ s ≤ 10.0) ∧
      (threat_level_of_score s = "UNDEFINED" ↔
        ¬((1.0 ≤ s ∧ s ≤ 2.0) ∨ (2.1 ≤ s ∧ s ≤ 4.0) ∨ (4.1 ≤ s ∧ s ≤ 6.0) ∨
            (6.1 ≤ s ∧ s ≤ 8.0) ∨ (8.1 ≤ s ∧ s ≤ 10.0))) ∧
      threat_level_of_score 2.05 = "UNDEFINED" ∧
      threat_level_of_score 0.5 = "UNDEFINED" ∧
      threat_level_of_score 10.5 = "UNDEFINED" := by
  have e1 : threat_level_of_score 2.05 = "UNDEFINED" := by
    unfold threat_level_of_score; norm_num
  have e2 : threat_level_of_score 0.5 = "UNDEFINED" := by
    unfold threat_level_of_score; norm_num
  have e3 : threat_level_of_score 10.5 = "UNDEFINED" := by
    unfold threat_level_of_score; norm_num
  refine ⟨?_, ?_, ?_, ?_, ?_, ?_, e1, e2, e3⟩ <;>
    unfold threat_level_of_score <;>
    split_ifs with h1 h2 h3 h4 h5 <;>
    simp_all <;>
    (intro hcon;
     first
       | linarith [h1.1, h1.2]
       | linarith [h2.1, h2.2]
       | linarith [h3.1, h3.2]
       | linarith [h4.1, h4.2])

/-- C10: the banding function returns one of exactly the six level strings,
so the description dict lookup and the color dict lookup always hit: the
returned description is the table entry (never the "N/A" fallback) and the
returned color is the table entry for the computed level. -/
theorem threat_level_lookups_total (s : ℚ) :
    (threat_level_of_score s = "LOW" ∨ threat_level_of_score s = "MODERATE" ∨
        threat_level_of_score s = "ELEVATED" ∨ threat_level_of_score s = "HIGH" ∨
        threat_level_of_score s = "EXTREME" ∨
        threat_level_of_score s = "UNDEFINED") ∧
      descriptions (threat_level_of_score s) =
        some (get_threat_description_of_score s) ∧
      get_threat_description_of_score s ≠ "N/A" ∧
      colors_map (threat_level_of_score s) =
        some (get_threat_color_of_score s) := by
  unfold get_threat_description_of_score get_threat_color_of_score
    threat_level_of_score
  split_ifs <;> simp [descriptions, colors_map]

/-- C3 as stated is false: `add_country` validates only the name — nothing
in record construction checks the 22 indicators against [1, 10] — so a
record whose `government_legitimacy` is 0 and whose `drug_trade` is 11 is
accepted and saved rather than rejected. -/
theorem out_of_range_indicator_accepted :
    outOfRangeCountry.political_stability.government_legitimacy = 0 ∧
      outOfRangeCountry.illicit_markets.drug_trade = 11 ∧
      (add_country [] ("France") outOfRangeCountry 0).isSome = true := by
  decide

/-- The acceptance of `add_country` depends only on the stripped name
passing the emptiness and `isalnum` checks. -/
theorem add_country_isSome_eq (store : List Row) (raw : String)
    (c : CountryData) (t : ℕ) :
    (add_country store raw c t).isSome =
      (!(pyStrip raw == "") && pyIsAlnum (stripSpacesHyphens (pyStrip raw))) := by
  unfold add_country
  dsimp only
  split_ifs with h1 h2 <;> simp_all

/-- The name check, characterised over the characters of the (stripped)
name: it passes iff every character is alphanumeric, a space or a hyphen,
and at least one character is alphanumeric. -/
theorem name_check_iff (nm : String) :
    (!(nm == "") && pyIsAlnum (stripSpacesHyphens nm)) = true ↔
      ((∀ ch ∈ nm.data, ch.isAlphanum ∨ ch = ' ' ∨ ch = '-') ∧
        ∃ ch ∈ nm.data, ch.isAlphanum) := by
  unfold pyIsAlnum stripSpacesHyphens
  simp only [Bool.and_eq_true, Bool.not_eq_true', beq_eq_false_iff_ne, ne_eq,
    List.all_eq_true, List.mem_filter, String.ext_iff,
    List.eq_nil_iff_forall_not_mem, not_forall, not_not]
  constructor
  · rintro ⟨-, ⟨ch0, hch0, hs0, hh0⟩, hall⟩
    refine ⟨?_, ch0, hch0, hall ch0 ⟨hch0, hs0, hh0⟩⟩
    intro ch hch
    by_cases hs : ch = ' '
    · exact Or.inr (Or.inl hs)
    by_cases hh : ch = '-'
    · exact Or.inr (Or.inr hh)
    · exact Or.inl (hall ch ⟨hch, hs, hh⟩)
  · rintro ⟨hall, ch, hch, hal⟩
    have hs : ¬ch = ' ' := by rintro rfl; simp at hal
    have hh : ¬ch = '-' := by rintro rfl; simp at hal
    refine ⟨⟨ch, hch⟩, ⟨ch, hch, hs, hh⟩, ?_⟩
    rintro x ⟨hx, hxs, hxh⟩
    rcases hall x hx with h | h | h
    · exact h
    · exact absurd h hxs
    · exact absurd h hxh

/-- C3 amended: `add_country` rejects (shows an error and performs no
persistence call) exactly when the stripped name fails the character test —
every character must be alphanumeric, a space or a hyphen, with at least one
alphanumeric — and acceptance is independent of the indicator values, which
are never range-checked; "Brazil-2" is accepted, "" and "Bad$Name" are
rejected. -/
theorem add_country_validates_name_only (store : List Row) (raw : String)
    (c c' : CountryData) (t : ℕ) :
    ((add_country store raw c t).isSome = true ↔
        ((∀ ch ∈ (pyStrip raw).data, ch.isAlphanum ∨ ch = ' ' ∨ ch = '-') ∧
          ∃ ch ∈ (pyStrip raw).data, ch.isAlphanum)) ∧
      (add_country store raw c t).isSome = (add_country store raw c' t).isSome ∧
      (add_country store ("Brazil-2") c t).isSome = true ∧
      (add_country store ("") c t).isSome = false ∧
      (add_country store ("Bad$Name") c t).isSome = false := by
  refine ⟨?_, ?_, ?_, ?_, ?_⟩
  · rw [add_country_isSome_eq]
    exact name_check_iff (pyStrip raw)
  · rw [add_country_isSome_eq, add_country_isSome_eq]
  · rw [add_country_isSome_eq]
    decide
  · rw [add_country_isSome_eq]
    decide
  · rw [add_country_isSome_eq]
    decide
